import Mathlib

/-!
Verification of the PeeringDB excerpt: the facility schema migration
(peeringdb_server/migrations/0072_add_fac_offered_fields.py) and the
API-key integration test harness (tests/test_api_keys.py), shallowly
embedded in Lean.  Django/DRF/django-grainy collaborators that are not
part of the excerpt are kept as explicit parameters or modelled from the
spec, as noted in the doc comments.
-/

namespace PeeringDB

/-! ## The schema migration 0072_add_fac_offered_fields -/

/-- The `default=` argument of a Django model field: either Python `None`
or a string literal. -/
inductive FieldDefault where
  | nullDefault : FieldDefault
  | strDefault (s : String) : FieldDefault
deriving DecidableEq

/-- The Django field classes that occur in migration 0072.
`positiveIntegerField` stores a non-negative integer; `charField` stores a
string. -/
inductive DjangoFieldType where
  | positiveIntegerField : DjangoFieldType
  | charField : DjangoFieldType
deriving DecidableEq

/-- A Django model field declaration, carrying the keyword arguments used
in migration 0072. `choices` is `none` when the field declares no choices. -/
structure DjangoField where
  fieldType : DjangoFieldType
  blank : Bool
  null : Bool
  fieldDefault : FieldDefault
  choices : Option (List (String × String))
  max_length : Option Nat
  verbose_name : String
  help_text : Option String
deriving DecidableEq

/-- A migration operation. The only operation class appearing in migration
0072 is `migrations.AddField(model_name, name, field)`. -/
inductive MigrationOperation where
  | addField (model_name : String) (name : String) (field : DjangoField) :
      MigrationOperation
deriving DecidableEq

/-- The model name an operation touches. -/
def MigrationOperation.opModel : MigrationOperation → String
  | .addField m _ _ => m

/-- The field name an operation adds. -/
def MigrationOperation.opName : MigrationOperation → String
  | .addField _ n _ => n

/-- The field declaration an operation adds. -/
def MigrationOperation.opField : MigrationOperation → DjangoField
  | .addField _ _ f => f

/-- The `choices=` list of the `offered_resilience` field, verbatim from
the migration: pairs of (stored value, human-readable label). -/
def offered_resilience_choices : List (String × String) :=
  [("", "Not Disclosed"),
   ("Not Disclosed", "Not Disclosed"),
   ("None (Best Effort)", "None (Best Effort)"),
   ("N+1", "N+1"),
   ("2N", "2N")]

/-- The `offered_power` field added by migration 0072. -/
def offered_power_field : DjangoField :=
  { fieldType := .positiveIntegerField
    blank := true
    null := true
    fieldDefault := .nullDefault
    choices := none
    max_length := none
    verbose_name := "Offered Power (kilowatts)"
    help_text := some "The amount of power offered by the facility" }

/-- The `offered_resilience` field added by migration 0072. -/
def offered_resilience_field : DjangoField :=
  { fieldType := .charField
    blank := true
    null := false
    fieldDefault := .strDefault ""
    choices := some offered_resilience_choices
    max_length := some 64
    verbose_name := "Offered Resilience"
    help_text := none }

/-- The `offered_space` field added by migration 0072. -/
def offered_space_field : DjangoField :=
  { fieldType := .positiveIntegerField
    blank := true
    null := true
    fieldDefault := .nullDefault
    choices := none
    max_length := none
    verbose_name := "Offered Space (sq meters)"
    help_text :=
      some "The amount of space offered by the facility, in square meters" }

/-- The `operations` list of migration 0072, in source order. -/
def migration_0072_operations : List MigrationOperation :=
  [.addField "facility" "offered_power" offered_power_field,
   .addField "facility" "offered_resilience" offered_resilience_field,
   .addField "facility" "offered_space" offered_space_field]

/-- The stored (database) values admitted by the `offered_resilience`
choices, in source order. -/
def offered_resilience_stored_values : List String :=
  offered_resilience_choices.map Prod.fst

/-- The human-readable tier labels of the `offered_resilience` choices,
in source order. -/
def offered_resilience_labels : List String :=
  offered_resilience_choices.map Prod.snd

/-- The four-tier enumeration named by the spec:
{Not Disclosed, None (Best Effort), N+1, 2N}. -/
def resilience_tiers : List String :=
  ["Not Disclosed", "None (Best Effort)", "N+1", "2N"]

/-- The label Django displays for a stored `offered_resilience` value:
the label of the first choice whose stored value matches. -/
def resilience_display (v : String) : Option String :=
  (offered_resilience_choices.find? (fun c => c.fst = v)).map Prod.snd

/-! ## The RDAP monkey-patch (tests/test_api_keys.py, setup/teardown) -/

/-- `ASN_RANGE_OVERRIDE = list(range(9000000, 9000999))` from
`setup_module`: the ASNs for which the patched lookup returns the prepared
override object. -/
def ASN_RANGE_OVERRIDE : List Nat := List.range' 9000000 999

/-- Outcome of the patched `RdapLookup.get_asn`: the prepared override
RDAP object, the result of delegating to the original implementation, or a
raised `RdapNotFoundError`. -/
inductive RdapResult (α : Type) where
  | overrideAsn : RdapResult α
  | originalLookup (r : α) : RdapResult α
  | rdapNotFoundError : RdapResult α
deriving DecidableEq

/-- The patched `get_asn` installed by `setup_module`.  `asn_is_bogon`
(from `peeringdb_server.inet`, outside the excerpt) and the original
`RdapLookup.get_asn` are passed in as parameters. -/
def get_asn_patched {α : Type} (asn_is_bogon : Nat → Bool) (orig : Nat → α)
    (asn : Nat) : RdapResult α :=
  if asn ∈ ASN_RANGE_OVERRIDE then .overrideAsn
  else if asn_is_bogon asn then .originalLookup (orig asn)
  else .rdapNotFoundError

/-- The mutable state of the `RdapLookup` class that the module-level
setup/teardown touch: its `get_asn` attribute, of abstract type `α`. -/
structure RdapLookupClass (α : Type) where
  get_asn : α

/-- `RdapLookup_get_asn = pdbinet.RdapLookup.get_asn` at module import:
the function bound before `setup_module` runs. -/
def RdapLookup_get_asn {α : Type} (rdap : RdapLookupClass α) : α :=
  rdap.get_asn

/-- `setup_module`'s final effect on the class:
`pdbinet.RdapLookup.get_asn = get_asn` rebinds the attribute to the
patched function. -/
def setup_module {α : Type} (patched : α) (_rdap : RdapLookupClass α) :
    RdapLookupClass α :=
  { get_asn := patched }

/-- `teardown_module`:
`pdbinet.RdapLookup.get_asn = RdapLookup_get_asn` rebinds the attribute to
the function saved at import. -/
def teardown_module {α : Type} (saved : α) (_rdap : RdapLookupClass α) :
    RdapLookupClass α :=
  { get_asn := saved }

/-! ## DummyResponse (tests/test_api_keys.py) -/

/-- `DummyResponse`: the simulated `requests` response object, built from
a status code, raw content and a headers mapping. -/
structure DummyResponse where
  status_code : Nat
  content : String
  headers : List (String × String)
deriving DecidableEq

/-- `DummyResponse.data`: `json.loads(self.content)`.  The Python `json`
library is external, so the parse function `loads` is a parameter. -/
def DummyResponse.data {β : Type} (loads : String → β) (r : DummyResponse) :
    β :=
  loads r.content

/-- `DummyResponse.read`: returns `self.content`. -/
def DummyResponse.read (r : DummyResponse) : String :=
  r.content

/-- `DummyResponse.getheader`: `self.headers.get(name)`. -/
def DummyResponse.getheader (r : DummyResponse) (name : String) :
    Option String :=
  (r.headers.find? (fun p => p.fst = name)).map Prod.snd

/-- `DummyResponse.json`: returns `self.data`. -/
def DummyResponse.json {β : Type} (loads : String → β) (r : DummyResponse) :
    β :=
  r.data loads

/-! ## DummyRestClientWithKeyAuth authentication (__init__) -/

/-- Python truthiness of an optional string: `None` and `""` are falsy. -/
def py_truthy_str : Option String → Bool
  | none => false
  | some s => s ≠ ""

/-- The authentication mode a client ends up in: either an
`Authorization` header installed via `self.api_client.credentials`, or a
session force-authenticated as a user instance. -/
inductive AuthMode where
  | apiKeyHeader (authorization : String) : AuthMode
  | forceAuthenticated (username : String) : AuthMode
deriving DecidableEq

/-- Whether the mode is the API-key header mode. -/
def AuthMode.isApiKey : AuthMode → Bool
  | .apiKeyHeader _ => true
  | .forceAuthenticated _ => false

/-- `DummyRestClientWithKeyAuth.__init__`'s authentication decision:
`self.user_inst` is the user named by `self.user` when truthy, else
`"guest"`; when the `key` kwarg is not `None` the client installs
`HTTP_AUTHORIZATION = "Api-Key " + key`, otherwise it force-authenticates
`self.user_inst`. -/
def client_auth (user : Option String) (key : Option String) : AuthMode :=
  let user_inst := if py_truthy_str user then user.getD "" else "guest"
  match key with
  | some k => .apiKeyHeader ("Api-Key " ++ k)
  | none => .forceAuthenticated user_inst

/-! ## DummyRestClientWithKeyAuth._request -/

/-- The url computation of `_request`: `if not url:` build
`/api/{typ}/{id}` when `id` is truthy, else `/api/{typ}`; a truthy `url`
argument is used as given. -/
def request_url (typ : String) (id : Nat) (url : Option String) : String :=
  if py_truthy_str url then url.getD ""
  else if id ≠ 0 then "/api/" ++ typ ++ "/" ++ toString id
  else "/api/" ++ typ

/-- Python `dict` assignment `d[k] = v`: replace the value under an
existing key, or append a fresh entry. -/
def dict_set {V : Type} (d : List (String × V)) (k : String) (v : V) :
    List (String × V) :=
  match d with
  | [] => [(k, v)]
  | (k', v') :: t => if k' = k then (k, v) :: t else (k', v') :: dict_set t k v

/-- Python `data.update(**params)`: assign every entry of `params` into
`data`, in order. -/
def dict_update {V : Type} (d params : List (String × V)) :
    List (String × V) :=
  params.foldl (fun acc kv => dict_set acc kv.fst kv.snd) d

/-- Python `d.get(k)`: the value of the first entry under `k`. -/
def dict_get {V : Type} (d : List (String × V)) (k : String) : Option V :=
  (d.find? (fun p => p.fst = k)).map Prod.snd

/-- The body computation of `_request`: `if not data: data = {}` then
`if params: data.update(**params)`. -/
def request_body {V : Type} (data params : Option (List (String × V))) :
    List (String × V) :=
  let d := match data with
    | some l => if l.isEmpty then [] else l
    | none => []
  match params with
  | some ps => if ps.isEmpty then d else dict_update d ps
  | none => d

/-- A response of the simulated REST API (the Django REST framework test
client): status code, raw content, charset. -/
structure SimResponse where
  status_code : Nat
  content : String
  charset : String
deriving DecidableEq

/-- Modelled from the spec: the simulated REST API behind
`self.api_client` is the Django REST framework test client, which is not
part of the excerpt; per the spec's external-interface section its
responses carry JSON bodies in UTF-8 encoding, so their charset is
`"utf-8"`. -/
def drf_response_charset : String := "utf-8"

/-- `DummyRestClientWithKeyAuth._request`: build the url and body, call
the simulated api (a parameter mapping method, url and body to a
`SimResponse`), assert `res.charset == "utf-8"`, and wrap status code and
content in a `DummyResponse`.  A failed assertion is an `Except.error`. -/
def dummy_rest_client_request {V : Type}
    (api : String → String → List (String × V) → SimResponse)
    (typ : String) (id : Nat) (method : String)
    (params data : Option (List (String × V))) (url : Option String) :
    Except String DummyResponse :=
  let u := request_url typ id url
  let body := request_body data params
  let res := api method u body
  if res.charset = "utf-8" then
    Except.ok ⟨res.status_code, res.content, []⟩
  else Except.error "AssertionError"

/-! ## Organization API keys (APITests.setUp) -/

/-- Modelled from the spec: `grainy_permissions.add_permission(namespace,
permission)` of django-grainy (external to the excerpt) grants the
bitmask `perm` to the key over `ns` — the key "bearing its own permission
set", one bitmask per namespace, so an existing grant for the namespace
is replaced and a new namespace is appended. -/
def add_permission (perms : List (String × Nat)) (ns : String) (perm : Nat) :
    List (String × Nat) :=
  dict_set perms ns perm

/-- The permission-transfer loop of `APITests.setUp`: starting from the
freshly created key's empty permission set, add each (namespace,
permission) pair of the organization group's permissions. -/
def transfer_group_permissions (groupPerms : List (String × Nat)) :
    List (String × Nat) :=
  groupPerms.foldl (fun acc perm => add_permission acc perm.fst perm.snd) []

/-- The permission sets of the two organization API keys after `setUp`:
the RW org key is filled from the RW org's `admin_usergroup` permissions,
the R org key from the R org's `usergroup` permissions. -/
def setUp_org_key_perms (adminGroupPerms userGroupPerms :
    List (String × Nat)) : List (String × Nat) × List (String × Nat) :=
  (transfer_group_permissions adminGroupPerms,
   transfer_group_permissions userGroupPerms)

/-! ## Helper lemmas -/

/-- Membership in the override range is the interval [9000000, 9000999). -/
theorem mem_ASN_RANGE_OVERRIDE (n : Nat) :
    n ∈ ASN_RANGE_OVERRIDE ↔ 9000000 ≤ n ∧ n < 9000999 := by
  unfold ASN_RANGE_OVERRIDE
  rw [List.mem_range'_1]

/-- Lookup at a cons cell. -/
theorem dict_get_cons {V : Type} (p : String × V) (t : List (String × V))
    (q : String) :
    dict_get (p :: t) q = if p.fst = q then some p.snd else dict_get t q := by
  by_cases h : p.fst = q <;> simp [dict_get, List.find?, h]

/-- Lookup after an assignment: the assigned key reads the new value,
every other key is untouched. -/
theorem dict_get_dict_set {V : Type} (d : List (String × V)) (k q : String)
    (v : V) :
    dict_get (dict_set d k v) q = if k = q then some v else dict_get d q := by
  induction d with
  | nil =>
    show dict_get [(k, v)] q = _
    rw [dict_get_cons]
  | cons p t ih =>
    obtain ⟨k', v'⟩ := p
    by_cases hk : k' = k
    · have hset : dict_set ((k', v') :: t) k v = (k, v) :: t := by
        simp [dict_set, hk]
      rw [hset, dict_get_cons, dict_get_cons]
      by_cases hq : k = q
      · rw [if_pos hq, if_pos hq]
      · rw [if_neg hq, if_neg hq, if_neg (fun hc : k' = q => hq (hk ▸ hc))]
    · have hset : dict_set ((k', v') :: t) k v = (k', v') :: dict_set t k v := by
        simp [dict_set, hk]
      rw [hset, dict_get_cons, dict_get_cons, ih]
      by_cases hq : k' = q
      · rw [if_pos hq, if_pos hq, if_neg (fun hc : k = q => hk (hq.trans hc.symm))]
      · rw [if_neg hq, if_neg hq]

/-- Assigning a key absent from the dict appends the entry. -/
theorem dict_set_of_not_mem {V : Type} (d : List (String × V)) (k : String)
    (v : V) (h : ∀ p ∈ d, p.fst ≠ k) : dict_set d k v = d ++ [(k, v)] := by
  induction d with
  | nil => rfl
  | cons p t ih =>
    obtain ⟨k', v'⟩ := p
    have hk : k' ≠ k := h (k', v') (List.mem_cons_self _ _)
    simp [dict_set, hk, ih (fun q hq => h q (List.mem_cons_of_mem _ hq))]

/-- A key missing from a dict has a `none` lookup and vice versa. -/
theorem not_mem_of_dict_get_none {V : Type} (ps : List (String × V))
    (q : String) (h : dict_get ps q = none) : q ∉ ps.map Prod.fst := by
  induction ps with
  | nil => simp
  | cons p t ih =>
    rw [dict_get_cons] at h
    by_cases hq : p.fst = q
    · rw [if_pos hq] at h
      cases h
    · rw [if_neg hq] at h
      simp only [List.map_cons, List.mem_cons]
      rintro (rfl | hmem)
      · exact hq rfl
      · exact ih h hmem

/-- Updating with entries whose keys avoid `q` leaves the lookup at `q`
unchanged. -/
theorem dict_get_update_of_not_mem {V : Type} (ps : List (String × V)) :
    ∀ (d : List (String × V)) (q : String), q ∉ ps.map Prod.fst →
      dict_get (dict_update d ps) q = dict_get d q := by
  induction ps with
  | nil => intro d q _; rfl
  | cons p t ih =>
    intro d q hq
    obtain ⟨k, w⟩ := p
    simp only [List.map_cons, List.mem_cons, not_or] at hq
    have step : dict_get (dict_update (dict_set d k w) t) q
        = dict_get (dict_set d k w) q := ih (dict_set d k w) q hq.2
    have : dict_update d ((k, w) :: t) = dict_update (dict_set d k w) t := rfl
    rw [this, step, dict_get_dict_set, if_neg (fun hc => hq.1 hc.symm)]

/-- Updating with a duplicate-free `ps` makes every key of `ps` read its
`ps` value. -/
theorem dict_get_update_of_mem {V : Type} (ps : List (String × V)) :
    ∀ (d : List (String × V)) (q : String) (v : V),
      (ps.map Prod.fst).Nodup → dict_get ps q = some v →
      dict_get (dict_update d ps) q = some v := by
  induction ps with
  | nil => intro d q v _ h; cases h
  | cons p t ih =>
    intro d q v hnd hv
    obtain ⟨k, w⟩ := p
    simp only [List.map_cons, List.nodup_cons] at hnd
    rw [dict_get_cons] at hv
    have hstep : dict_update d ((k, w) :: t) = dict_update (dict_set d k w) t :=
      rfl
    by_cases hq : k = q
    · subst hq
      rw [if_pos rfl] at hv
      rw [hstep, dict_get_update_of_not_mem t (dict_set d k w) k hnd.1,
        dict_get_dict_set, if_pos rfl]
      exact hv
    · rw [if_neg hq] at hv
      rw [hstep]
      exact ih (dict_set d k w) q v hnd.2 hv

/-- Folding grainy `add_permission` over a duplicate-free permission list
appends it verbatim, provided the accumulator avoids its namespaces. -/
theorem foldl_add_permission_append (l : List (String × Nat)) :
    ∀ acc : List (String × Nat), (l.map Prod.fst).Nodup →
      (∀ p ∈ acc, p.fst ∉ l.map Prod.fst) →
      l.foldl (fun a q => add_permission a q.fst q.snd) acc = acc ++ l := by
  induction l with
  | nil => intro acc _ _; simp
  | cons q t ih =>
    intro acc hnd hdisj
    obtain ⟨k, w⟩ := q
    simp only [List.map_cons, List.nodup_cons] at hnd
    have step : add_permission acc k w = acc ++ [(k, w)] :=
      dict_set_of_not_mem acc k w
        (fun p hp hc => hdisj p hp (by simp [hc]))
    have hdisj' : ∀ p ∈ acc ++ [(k, w)], p.fst ∉ t.map Prod.fst := by
      intro p hp
      rcases List.mem_append.mp hp with h1 | h2
      · intro hc
        exact hdisj p h1 (by simp [hc])
      · simp only [List.mem_singleton] at h2
        subst h2
        exact hnd.1
    calc ((k, w) :: t).foldl (fun a q => add_permission a q.fst q.snd) acc
        = t.foldl (fun a q => add_permission a q.fst q.snd)
            (add_permission acc k w) := rfl
      _ = t.foldl (fun a q => add_permission a q.fst q.snd)
            (acc ++ [(k, w)]) := by rw [step]
      _ = (acc ++ [(k, w)]) ++ t := ih (acc ++ [(k, w)]) hnd.2 hdisj'
      _ = acc ++ ((k, w) :: t) := by simp

/-! ## Claims -/

/-- C1 (counterexample): the claim that the storable `offered_resilience`
values are exactly the four tier names, one stored value per tier, is
false: the empty string is a storable value outside the four-tier set,
and the Not Disclosed tier has two distinct stored values, `""` and
`"Not Disclosed"`. -/
theorem C1_counterexample :
    "" ∈ offered_resilience_stored_values ∧
    "" ∉ resilience_tiers ∧
    ("", "Not Disclosed") ∈ offered_resilience_choices ∧
    ("Not Disclosed", "Not Disclosed") ∈ offered_resilience_choices := by
  decide

/-- C1 (amended): the storable `offered_resilience` values are exactly
five — the empty string plus the four tier names; the display labels
enumerate exactly the four tiers; the Not Disclosed tier has the two
stored values `""` and `"Not Disclosed"` while each other tier has
exactly one stored value equal to its name; the default is `""` and it
displays as Not Disclosed. -/
theorem C1_resilience_choices :
    offered_resilience_stored_values = "" :: resilience_tiers ∧
    offered_resilience_labels.dedup = resilience_tiers ∧
    (offered_resilience_choices.filter
      (fun c => c.snd = "Not Disclosed")).map Prod.fst = ["", "Not Disclosed"] ∧
    (offered_resilience_choices.filter
      (fun c => c.snd = "None (Best Effort)")).map Prod.fst
      = ["None (Best Effort)"] ∧
    (offered_resilience_choices.filter
      (fun c => c.snd = "N+1")).map Prod.fst = ["N+1"] ∧
    (offered_resilience_choices.filter
      (fun c => c.snd = "2N")).map Prod.fst = ["2N"] ∧
    offered_resilience_field.fieldDefault = FieldDefault.strDefault "" ∧
    resilience_display "" = some "Not Disclosed" := by
  decide

/-- C2: migration 0072 touches only the facility model and adds exactly
three optional fields: `offered_power` and `offered_space`, nullable
non-negative integer (PositiveIntegerField) columns defaulting to null,
and `offered_resilience`, an enumerated char column defaulting to the
empty string. -/
theorem C2_migration_three_fields :
    migration_0072_operations.length = 3 ∧
    migration_0072_operations.map MigrationOperation.opModel
      = ["facility", "facility", "facility"] ∧
    migration_0072_operations.map MigrationOperation.opName
      = ["offered_power", "offered_resilience", "offered_space"] ∧
    offered_power_field.fieldType = DjangoFieldType.positiveIntegerField ∧
    offered_power_field.null = true ∧
    offered_power_field.blank = true ∧
    offered_power_field.fieldDefault = FieldDefault.nullDefault ∧
    offered_space_field.fieldType = DjangoFieldType.positiveIntegerField ∧
    offered_space_field.null = true ∧
    offered_space_field.blank = true ∧
    offered_space_field.fieldDefault = FieldDefault.nullDefault ∧
    offered_resilience_field.fieldType = DjangoFieldType.charField ∧
    offered_resilience_field.blank = true ∧
    offered_resilience_field.choices = some offered_resilience_choices ∧
    offered_resilience_field.fieldDefault = FieldDefault.strDefault "" := by
  decide

/-- C3: a client constructed with a key installs the header
`Authorization: Api-Key <key>` with the key verbatim, regardless of the
user; without a key it force-authenticates as the named user, or as
"guest" when no user is named; and the API-key mode is active exactly
when a key was given. -/
theorem C3_client_auth_modes (u k : String) (hu : u ≠ "") :
    (∀ user : Option String,
      client_auth user (some k) = AuthMode.apiKeyHeader ("Api-Key " ++ k)) ∧
    client_auth (some u) none = AuthMode.forceAuthenticated u ∧
    client_auth none none = AuthMode.forceAuthenticated "guest" ∧
    (∀ (user key : Option String),
      (client_auth user key).isApiKey = key.isSome) := by
  refine ⟨fun user => rfl, ?_, rfl, ?_⟩
  · simp [client_auth, py_truthy_str, hu]
  · intro user key
    cases key <;> rfl

/-- C3 witness. -/
theorem C3_client_auth_modes_witness :
    client_auth (some "api_test") (some "abc123")
      = AuthMode.apiKeyHeader "Api-Key abc123" ∧
    client_auth (some "api_test") none
      = AuthMode.forceAuthenticated "api_test" :=
  ⟨((C3_client_auth_modes "api_test" "abc123" (by decide)).1
      (some "api_test")).trans (by decide),
   (C3_client_auth_modes "api_test" "abc123" (by decide)).2.1⟩

/-- C4 (counterexample): an explicitly passed empty url is not used
unchanged — `_request` rebuilds the path from the type, because Python's
`if not url:` treats the empty string like an omitted url. -/
theorem C4_counterexample :
    request_url "fac" 0 (some "") = "/api/fac" ∧
    request_url "fac" 0 (some "") ≠ "" := by
  constructor <;> decide

/-- C4 (amended): with no url (or an explicit empty url) the request path
is `/api/{type}/{id}` for nonzero id and `/api/{type}` for zero id; an
explicit non-empty url is used unchanged; an explicit empty url behaves
exactly like an omitted one. -/
theorem C4_request_url (typ : String) (id : Nat) (u : String)
    (hu : u ≠ "") :
    request_url typ id (some u) = u ∧
    (id ≠ 0 → request_url typ id none = "/api/" ++ typ ++ "/" ++ toString id) ∧
    (id = 0 → request_url typ id none = "/api/" ++ typ) ∧
    request_url typ id (some "") = request_url typ id none := by
  refine ⟨?_, ?_, ?_, ?_⟩
  · simp [request_url, py_truthy_str, hu]
  · intro h
    simp [request_url, py_truthy_str, h]
  · intro h
    subst h
    simp [request_url, py_truthy_str]
  · simp [request_url, py_truthy_str]

/-- C4 witness. -/
theorem C4_request_url_witness :
    request_url "net" 5 (some "/custom") = "/custom" ∧
    request_url "net" 5 none = "/api/net/5" ∧
    request_url "fac" 0 none = "/api/fac" :=
  ⟨(C4_request_url "net" 5 "/custom" (by decide)).1,
   ((C4_request_url "net" 5 "/custom" (by decide)).2.1
     (by decide)).trans (by decide),
   ((C4_request_url "fac" 0 "x" (by decide)).2.2.1 rfl).trans (by decide)⟩

/-- C5: when every response of the simulated api carries the DRF test
client charset utf-8, the assertion in `_request` never fails and
`_request` returns `Except.ok` of the DummyResponse built from the
response's status code and content. -/
theorem C5_request_utf8 (V : Type)
    (api : String → String → List (String × V) → SimResponse)
    (typ : String) (id : Nat) (method : String)
    (params data : Option (List (String × V))) (url : Option String)
    (hapi : ∀ m u b, (api m u b).charset = drf_response_charset) :
    dummy_rest_client_request api typ id method params data url =
      Except.ok
        ⟨(api method (request_url typ id url)
            (request_body data params)).status_code,
         (api method (request_url typ id url)
            (request_body data params)).content, []⟩ := by
  have h := hapi method (request_url typ id url) (request_body data params)
  simp [dummy_rest_client_request, h, drf_response_charset]

/-- C5 witness. -/
theorem C5_request_utf8_witness :
    dummy_rest_client_request
      (fun _ _ _ => SimResponse.mk 200 "[]" "utf-8")
      "net" 1 "GET" (none : Option (List (String × Nat))) none none =
      Except.ok (DummyResponse.mk 200 "[]" []) :=
  C5_request_utf8 Nat (fun _ _ _ => SimResponse.mk 200 "[]" "utf-8")
    "net" 1 "GET" none none none (fun _ _ _ => rfl)

/-- C6: each organization API key created in `setUp` ends up with exactly
the (namespace, bitmask) pairs of its organization group — the RW key a
copy of the admin user group's permissions, the R key a copy of the user
group's — and nothing else, provided each group lists every namespace
once. -/
theorem C6_org_key_permissions (admin usr : List (String × Nat))
    (ha : (admin.map Prod.fst).Nodup) (hu : (usr.map Prod.fst).Nodup) :
    setUp_org_key_perms admin usr = (admin, usr) := by
  unfold setUp_org_key_perms transfer_group_permissions
  rw [foldl_add_permission_append admin [] ha (by simp),
    foldl_add_permission_append usr [] hu (by simp)]
  simp

/-- C6 witness. -/
theorem C6_org_key_permissions_witness :
    setUp_org_key_perms
      [("peeringdb.organization.1", 15),
       ("peeringdb.organization.1.network", 15)]
      [("peeringdb.organization.2", 1)] =
    ([("peeringdb.organization.1", 15),
      ("peeringdb.organization.1.network", 15)],
     [("peeringdb.organization.2", 1)]) :=
  C6_org_key_permissions
    [("peeringdb.organization.1", 15),
     ("peeringdb.organization.1.network", 15)]
    [("peeringdb.organization.2", 1)] (by decide) (by decide)

/-- C7: a DummyResponse built from a status code and content answers
`json()` and `data` with the JSON parse of the content, `read()` with the
content unchanged, and stores the given status code. -/
theorem C7_dummy_response (β : Type) (loads : String → β) (s : Nat)
    (c : String) (hs : List (String × String)) :
    (DummyResponse.mk s c hs).json loads = loads c ∧
    (DummyResponse.mk s c hs).data loads = loads c ∧
    (DummyResponse.mk s c hs).read = c ∧
    (DummyResponse.mk s c hs).status_code = s :=
  ⟨rfl, rfl, rfl, rfl⟩

/-- C8: the patched `get_asn` returns the override object on every ASN in
[9000000, 9000998], delegates to the original lookup on bogon ASNs
outside that range, raises RdapNotFoundError on non-bogon ASNs outside
it, and in particular raises on 9000999 (not a bogon ASN), the exclusive
upper bound of `range(9000000, 9000999)`. -/
theorem C8_get_asn_cases (α : Type) (bogon : Nat → Bool) (orig : Nat → α)
    (asn : Nat) :
    (9000000 ≤ asn ∧ asn ≤ 9000998 →
      get_asn_patched bogon orig asn = RdapResult.overrideAsn) ∧
    (asn < 9000000 ∨ 9000998 < asn → bogon asn = true →
      get_asn_patched bogon orig asn = RdapResult.originalLookup (orig asn)) ∧
    (asn < 9000000 ∨ 9000998 < asn → bogon asn = false →
      get_asn_patched bogon orig asn = RdapResult.rdapNotFoundError) ∧
    (bogon 9000999 = false →
      get_asn_patched bogon orig 9000999 = RdapResult.rdapNotFoundError) := by
  refine ⟨?_, ?_, ?_, ?_⟩
  · intro h
    have hm : asn ∈ ASN_RANGE_OVERRIDE :=
      (mem_ASN_RANGE_OVERRIDE asn).mpr ⟨h.1, by omega⟩
    simp [get_asn_patched, hm]
  · intro h hb
    have hm : asn ∉ ASN_RANGE_OVERRIDE := fun hc => by
      have := (mem_ASN_RANGE_OVERRIDE asn).mp hc
      omega
    simp [get_asn_patched, hm, hb]
  · intro h hb
    have hm : asn ∉ ASN_RANGE_OVERRIDE := fun hc => by
      have := (mem_ASN_RANGE_OVERRIDE asn).mp hc
      omega
    simp [get_asn_patched, hm, hb]
  · intro hb
    have hm : (9000999 : Nat) ∉ ASN_RANGE_OVERRIDE := fun hc => by
      have := (mem_ASN_RANGE_OVERRIDE 9000999).mp hc
      omega
    simp [get_asn_patched, hm, hb]

/-- C8 witness. -/
theorem C8_get_asn_cases_witness :
    get_asn_patched (fun n => decide (n = 64512)) (fun n : Nat => n) 9000000
      = RdapResult.overrideAsn ∧
    get_asn_patched (fun n => decide (n = 64512)) (fun n : Nat => n) 64512
      = RdapResult.originalLookup 64512 ∧
    get_asn_patched (fun n => decide (n = 64512)) (fun n : Nat => n) 100
      = RdapResult.rdapNotFoundError ∧
    get_asn_patched (fun n => decide (n = 64512)) (fun n : Nat => n) 9000999
      = RdapResult.rdapNotFoundError :=
  ⟨(C8_get_asn_cases Nat (fun n => decide (n = 64512)) (fun n => n)
      9000000).1 ⟨by omega, by omega⟩,
   (C8_get_asn_cases Nat (fun n => decide (n = 64512)) (fun n => n)
      64512).2.1 (by omega) (by decide),
   (C8_get_asn_cases Nat (fun n => decide (n = 64512)) (fun n => n)
      100).2.2.1 (by omega) (by decide),
   (C8_get_asn_cases Nat (fun n => decide (n = 64512)) (fun n => n)
      9000999).2.2.2 (by decide)⟩

/-- C9: running `setup_module` and then `teardown_module` rebinds
`RdapLookup.get_asn` to the exact value saved at module import: the
monkey-patch is fully undone and the class state is back to what it was. -/
theorem C9_teardown_restores (α : Type) (patched : α)
    (rdap : RdapLookupClass α) :
    teardown_module (RdapLookup_get_asn rdap) (setup_module patched rdap)
      = rdap ∧
    (teardown_module (RdapLookup_get_asn rdap)
      (setup_module patched rdap)).get_asn = rdap.get_asn := by
  cases rdap
  exact ⟨rfl, rfl⟩

/-- C10: the body sent by `_request` is the data dict updated with the
params entries: any key answered by params reads its params value, any
other key reads its data value; falsy (absent or empty) data is replaced
by the empty dict before the merge. -/
theorem C10_request_body (V : Type) (d ps : List (String × V))
    (hps : (ps.map Prod.fst).Nodup) :
    request_body (some d) (some ps) = dict_update d ps ∧
    (∀ q v, dict_get ps q = some v →
      dict_get (request_body (some d) (some ps)) q = some v) ∧
    (∀ q, dict_get ps q = none →
      dict_get (request_body (some d) (some ps)) q = dict_get d q) ∧
    request_body none (some ps) = dict_update [] ps ∧
    request_body (some []) (some ps) = dict_update [] ps := by
  have hbody : request_body (some d) (some ps) = dict_update d ps := by
    cases d <;> cases ps <;> rfl
  refine ⟨hbody, ?_, ?_, ?_, ?_⟩
  · intro q v hv
    rw [hbody]
    exact dict_get_update_of_mem ps d q v hps hv
  · intro q hq
    rw [hbody]
    exact dict_get_update_of_not_mem ps d q (not_mem_of_dict_get_none ps q hq)
  · cases ps <;> rfl
  · cases ps <;> rfl

/-- C10 witness. -/
theorem C10_request_body_witness :
    request_body (some [("name", "a"), ("asn", "1")]) (some [("asn", "2")])
      = [("name", "a"), ("asn", "2")] ∧
    dict_get (request_body (some [("name", "a"), ("asn", "1")])
      (some [("asn", "2")])) "asn" = some "2" ∧
    dict_get (request_body (some [("name", "a"), ("asn", "1")])
      (some [("asn", "2")])) "name" = some "a" := by
  have h := C10_request_body String [("name", "a"), ("asn", "1")]
    [("asn", "2")] (by decide)
  exact ⟨h.1.trans (by decide),
    h.2.1 "asn" "2" (by decide),
    (h.2.2.1 "name" (by decide)).trans (by decide)⟩

end PeeringDB
